import Mathlib

/-!
Shallow embedding of the todo-list service (FastAPI + Motor/MongoDB backend)
for checking its natural-language specification.

The embedding covers:
- the entity model (`models.py`: `TodoBase`/`TodoCreate`/`TodoUpdate`/`Todo`);
- the data-access layer (`crud.py`: `TodoCRUD`), with the MongoDB collection
  modelled as a list of documents in insertion order, Mongo single-document
  primitives (`insert_one`, `find_one`, `update_one`, `delete_one`,
  `count_documents`, cursor `sort`/`skip`/`limit`) modelled explicitly, and
  each `datetime.utcnow()` call modelled as an explicit clock-read parameter;
- the REST pagination endpoint and route table of `main.py`, with
  Starlette's registration-order first-match dispatch;
- the MCP pagination tool of `mcp_server.py`.

Timestamps are natural numbers (a monotone clock); ObjectIds are strings,
with `bson.ObjectId.is_valid` modelled for string inputs (24 hex characters).
-/

namespace TodoApp

/-- ASCII lower-casing of one character, the case folding used by the model of
MongoDB's case-insensitive regex option `i` on ASCII text. -/
def lowerChar (c : Char) : Char :=
  if 'A' ≤ c ∧ c ≤ 'Z' then Char.ofNat (c.toNat + 32) else c

/-- Hexadecimal digit test (both cases), as accepted by `bson.ObjectId`. -/
def isHexChar (c : Char) : Bool :=
  ('0' ≤ c && c ≤ '9') || ('a' ≤ c && c ≤ 'f') || ('A' ≤ c && c ≤ 'F')

/-- Model of `bson.ObjectId.is_valid` for string inputs: a string is a valid
ObjectId exactly when it is 24 hexadecimal characters. -/
def isValidObjectId (s : String) : Bool :=
  s.length == 24 && s.data.all isHexChar

/-- Hexadecimal digit character for a value below 16 (lowercase letters). -/
def hexChar (n : Nat) : Char :=
  if n < 10 then Char.ofNat (48 + n) else Char.ofNat (87 + n)

/-- Big-endian hexadecimal digits of `v`, padded to width `w`. -/
def hexDigits : Nat → Nat → List Char
  | 0, _ => []
  | w + 1, v => hexDigits w (v / 16) ++ [hexChar (v % 16)]

/-- Modelled from the spec: the storage collaborator (MongoDB, via `bson`
ObjectId generation, which is outside this repository) assigns each inserted
document an opaque unique identifier; an ObjectId renders as a 24-character
hexadecimal string. The store's insertion counter is the generation state. -/
def genId (n : Nat) : String := ⟨hexDigits 24 n⟩

/-- Token of the modelled regex fragment: a literal character or the `.`
wildcard metacharacter. -/
inductive RegexTok where
  | dot : RegexTok
  | lit : Char → RegexTok
deriving DecidableEq

/-- Reading of one pattern character in the modelled fragment of MongoDB
`$regex` patterns: `.` is the any-character wildcard, everything else a
literal. -/
def tokOf (c : Char) : RegexTok := if c = '.' then .dot else .lit c

/-- Pattern string read as a token list (the literal-plus-wildcard fragment of
the PCRE patterns MongoDB `$regex` accepts). -/
def parseRegex (q : String) : List RegexTok := q.data.map tokOf

/-- One token matching one subject character, case-insensitively (option `i`). -/
def tokMatch (t : RegexTok) (c : Char) : Bool :=
  match t with
  | .dot => true
  | .lit l => lowerChar l == lowerChar c

/-- The token list matching a prefix of the subject. -/
def matchHere : List RegexTok → List Char → Bool
  | [], _ => true
  | _ :: _, [] => false
  | t :: ts, c :: cs => tokMatch t c && matchHere ts cs

/-- Unanchored search: the token list matches starting at some position. -/
def regexSearch (ts : List RegexTok) : List Char → Bool
  | [] => matchHere ts []
  | c :: cs => matchHere ts (c :: cs) || regexSearch ts cs

/-- Model of the MongoDB filter clause `{field: {"$regex": pat, "$options": "i"}}`
applied to a string field value, for patterns in the literal-plus-`.` fragment:
case-insensitive unanchored regex search. -/
def mongoRegexMatchCI (pat field : String) : Bool :=
  regexSearch (parseRegex pat) field.data

/-- The PCRE metacharacters; a pattern free of these is matched purely
literally. -/
def isRegexMeta (c : Char) : Bool :=
  (['.', '^', '$', '*', '+', '?', '(', ')', '[', ']',
    '\x7b', '\x7d', '|', '\\'] : List Char).contains c

/-- A search string containing no regex metacharacter. -/
def metaFree (q : String) : Bool := q.data.all (fun c => !(isRegexMeta c))

/-- Case-insensitive "starts with" on character lists (spec-side notion). -/
def ciStartsWith : List Char → List Char → Bool
  | [], _ => true
  | _ :: _, [] => false
  | a :: as, b :: bs => (lowerChar a == lowerChar b) && ciStartsWith as bs

/-- Case-insensitive substring occurrence of `needle` in the subject list. -/
def ciSubstrAux (needle : List Char) : List Char → Bool
  | [] => ciStartsWith needle []
  | c :: cs => ciStartsWith needle (c :: cs) || ciSubstrAux needle cs

/-- Spec-side definition, following the specification's words: the search
string occurs in the subject as a case-insensitive substring. Used to compare
the specified filter semantics against the embedded code's regex filter. -/
def specCiSubstring (needle hay : String) : Bool :=
  ciSubstrAux needle.data hay.data

/-- The stored Todo document (`models.py` `Todo`): title, optional
description, completion flag, priority string, optional due date, tag list,
plus the storage-assigned id and the two timestamps. -/
structure Todo where
  id : String
  title : String
  description : Option String
  completed : Bool
  priority : String
  due_date : Option Nat
  tags : List String
  created_at : Nat
  updated_at : Nat
deriving DecidableEq, Repr

/-- A create request (`models.py` `TodoCreate`): the document fields without
id and timestamps; pydantic defaults (`completed := false`,
`priority := "medium"`, `tags := []`) are already applied in the field
values. -/
structure TodoCreate where
  title : String
  description : Option String
  completed : Bool
  priority : String
  due_date : Option Nat
  tags : List String
deriving DecidableEq, Repr

/-- A partial update request (`models.py` `TodoUpdate`): every field optional;
`none` means the field is absent from the request. -/
structure TodoUpdate where
  title : Option String
  description : Option String
  completed : Option Bool
  priority : Option String
  due_date : Option Nat
  tags : Option (List String)
deriving DecidableEq, Repr

/-- The todos collection: documents in insertion order, plus the ObjectId
generation counter of the storage collaborator. -/
structure TodoStore where
  docs : List Todo
  nextId : Nat
deriving DecidableEq, Repr

/-- The MongoDB filter document built by `crud.py` `get_todos` /
`get_todos_count`: an optional equality constraint on `completed`, an optional
equality constraint on `priority`, and an optional `$or` pair of
case-insensitive regex clauses over `title` and `description` (represented by
the search pattern). `none` means the clause is absent from the filter. -/
structure FilterDict where
  completed : Option Bool
  priority : Option String
  search : Option String
deriving DecidableEq, Repr

/-- `crud.py` `get_todos`/`get_todos_count` filter construction:
`completed` is added whenever it `is not None`; `priority` and `search` are
added only when Python-truthy (`if priority:`, `if search:`), so a supplied
empty string adds no clause. -/
def buildFilter (completed : Option Bool) (priority search : Option String) :
    FilterDict :=
  { completed := completed
    priority := match priority with
      | none => none
      | some p => if p = "" then none else some p
    search := match search with
      | none => none
      | some q => if q = "" then none else some q }

/-- A document matching the filter: each present clause must hold. The `$or`
regex pair matches when `title` matches, or `description` is present (non-null)
and matches. -/
def matchDoc (f : FilterDict) (d : Todo) : Bool :=
  (match f.completed with | none => true | some b => d.completed == b) &&
  (match f.priority with | none => true | some p => d.priority == p) &&
  (match f.search with
   | none => true
   | some q =>
     mongoRegexMatchCI q d.title ||
       (match d.description with
        | some t => mongoRegexMatchCI q t
        | none => false))

/-- Mongo `find_one({"_id": i})`: the first document with the given id. -/
def find_one (s : TodoStore) (i : String) : Option Todo :=
  s.docs.find? (fun d => d.id == i)

/-- Mongo `update_one` body: rewrite the first document satisfying `p` with
`f`; the returned flag is `modified_count > 0`, true exactly when the matched
document actually changed. -/
def updateDocs (p : Todo → Bool) (f : Todo → Todo) :
    List Todo → List Todo × Bool
  | [] => ([], false)
  | d :: ds =>
    if p d then (f d :: ds, decide (¬ f d = d))
    else
      let r := updateDocs p f ds
      (d :: r.1, r.2)

/-- Mongo `delete_one` body: remove the first document satisfying `p`; the
flag is `deleted_count > 0`. -/
def eraseFirst (p : Todo → Bool) : List Todo → List Todo × Bool
  | [] => ([], false)
  | d :: ds =>
    if p d then (ds, true)
    else
      let r := eraseFirst p ds
      (d :: r.1, r.2)

/-- Insertion step of the descending sort on a numeric key (model of Mongo
`sort(key, -1)`): a document is placed before the first strictly smaller key,
keeping equal keys in their existing order. -/
def insertDesc (key : Todo → Nat) (d : Todo) : List Todo → List Todo
  | [] => [d]
  | e :: es => if key e < key d then d :: e :: es else e :: insertDesc key d es

/-- Descending sort on a numeric key (model of Mongo `sort(key, -1)`). -/
def sortByDesc (key : Todo → Nat) : List Todo → List Todo
  | [] => []
  | d :: ds => insertDesc key d (sortByDesc key ds)

/-- The document dict built by `crud.py` `TodoCRUD.create_todo`: all fields
from the request, `created_at` and `updated_at` from two successive clock
reads (`datetime.utcnow()` is called twice, modelled as `t1` then `t2`), and
the id the storage layer assigns at insertion. -/
def createdDoc (s : TodoStore) (req : TodoCreate) (t1 t2 : Nat) : Todo :=
  { id := genId s.nextId
    title := req.title
    description := req.description
    completed := req.completed
    priority := req.priority
    due_date := req.due_date
    tags := req.tags
    created_at := t1
    updated_at := t2 }

/-- `crud.py` `TodoCRUD.create_todo`, continued: insert the document dict
(the storage layer assigns the id), and return `find_one` of the inserted id
together with the new store. -/
def create_todo (s : TodoStore) (req : TodoCreate) (t1 t2 : Nat) :
    Option Todo × TodoStore :=
  let doc : Todo := createdDoc s req t1 t2
  let s' : TodoStore := { docs := s.docs ++ [doc], nextId := s.nextId + 1 }
  (find_one s' doc.id, s')

/-- `crud.py` `TodoCRUD.get_todo`: `None` for an invalid ObjectId string,
otherwise `find_one` on the collection. -/
def get_todo (s : TodoStore) (todo_id : String) : Option Todo :=
  if isValidObjectId todo_id then find_one s todo_id else none

/-- `crud.py` `TodoCRUD.get_todos`: filter, sort by `created_at` descending,
skip, limit. (Mongo applies cursor `sort` before `skip`/`limit` regardless of
the call order on the cursor; `to_list(length=limit)` caps at `limit`, so
`limit = 0` yields the empty page.) -/
def get_todos (s : TodoStore) (skip limit : Nat) (completed : Option Bool)
    (priority search : Option String) : List Todo :=
  ((sortByDesc (fun d => d.created_at)
      (s.docs.filter (matchDoc (buildFilter completed priority search)))).drop
        skip).take limit

/-- `crud.py` `TodoCRUD.get_todos_count`: `count_documents` with the same
filter as `get_todos`. -/
def get_todos_count (s : TodoStore) (completed : Option Bool)
    (priority search : Option String) : Nat :=
  (s.docs.filter (matchDoc (buildFilter completed priority search))).length

/-- The update dict of `crud.py` `TodoCRUD.update_todo` is empty: every field
of the request is `None` (absent fields and fields explicitly set to null are
both dropped by the dict comprehension). -/
def isEmptyUpdate (u : TodoUpdate) : Bool :=
  u.title.isNone && u.description.isNone && u.completed.isNone &&
    u.priority.isNone && u.due_date.isNone && u.tags.isNone

/-- The `$set` applied by `crud.py` `TodoCRUD.update_todo` when the update
dict is non-empty: each present request field overwrites the stored value, and
`updated_at` is set to the clock read `t`. -/
def applySet (u : TodoUpdate) (t : Nat) (d : Todo) : Todo :=
  { d with
    title := match u.title with | some x => x | none => d.title
    description := match u.description with
      | some x => some x
      | none => d.description
    completed := match u.completed with | some x => x | none => d.completed
    priority := match u.priority with | some x => x | none => d.priority
    due_date := match u.due_date with | some x => some x | none => d.due_date
    tags := match u.tags with | some x => x | none => d.tags
    updated_at := t }

/-- `crud.py` `TodoCRUD.update_todo`: `None` for an invalid id; for an empty
update dict, return `get_todo` without touching the store; otherwise
`update_one` with the `$set` (which always includes `updated_at := t`), then
return `get_todo` if `modified_count` was positive and `None` otherwise. -/
def update_todo (s : TodoStore) (todo_id : String) (u : TodoUpdate) (t : Nat) :
    Option Todo × TodoStore :=
  if isValidObjectId todo_id then
    if isEmptyUpdate u then (get_todo s todo_id, s)
    else
      let r := updateDocs (fun d => d.id == todo_id) (applySet u t) s.docs
      let s' : TodoStore := { s with docs := r.1 }
      if r.2 then (get_todo s' todo_id, s') else (none, s')
  else (none, s)

/-- `crud.py` `TodoCRUD.delete_todo`: `False` for an invalid id, otherwise
`delete_one` and `deleted_count > 0`. -/
def delete_todo (s : TodoStore) (todo_id : String) : Bool × TodoStore :=
  if isValidObjectId todo_id then
    let r := eraseFirst (fun d => d.id == todo_id) s.docs
    (r.2, { s with docs := r.1 })
  else (false, s)

/-- `crud.py` `TodoCRUD.toggle_todo`: `None` for an invalid id or a missing
document; otherwise fetch the document, `$set` `completed` to the negation of
the fetched flag together with `updated_at := t`, and return `get_todo` if
`modified_count` was positive and `None` otherwise. -/
def toggle_todo (s : TodoStore) (todo_id : String) (t : Nat) :
    Option Todo × TodoStore :=
  if isValidObjectId todo_id then
    match get_todo s todo_id with
    | none => (none, s)
    | some todo =>
      let ns := !todo.completed
      let r := updateDocs (fun d => d.id == todo_id)
        (fun d => { d with completed := ns, updated_at := t }) s.docs
      let s' : TodoStore := { s with docs := r.1 }
      if r.2 then (get_todo s' todo_id, s') else (none, s')
  else (none, s)

/-- `crud.py` `TodoCRUD.get_todos_by_tag`: filter on tag membership, sorted by
`created_at` descending, unbounded. -/
def get_todos_by_tag (s : TodoStore) (tag : String) : List Todo :=
  sortByDesc (fun d => d.created_at)
    (s.docs.filter (fun d => d.tags.contains tag))

/-- `crud.py` `TodoCRUD.get_completed_todos`: completed documents sorted by
`updated_at` descending, unbounded. -/
def get_completed_todos (s : TodoStore) : List Todo :=
  sortByDesc (fun d => d.updated_at) (s.docs.filter (fun d => d.completed))

/-- `crud.py` `TodoCRUD.get_pending_todos`: incomplete documents sorted by
`created_at` descending, unbounded. -/
def get_pending_todos (s : TodoStore) : List Todo :=
  sortByDesc (fun d => d.created_at) (s.docs.filter (fun d => !d.completed))

/-- `models.py` `TodoListResponse`: the paginated list response body. -/
structure TodoListResponse where
  todos : List Todo
  total : Nat
  page : Nat
  limit : Nat
  has_next : Bool
  has_prev : Bool
deriving DecidableEq, Repr

/-- `main.py` `get_todos` (route `GET /todos`): `skip := (page - 1) * limit`,
the page from `crud.get_todos`, the total from `crud.get_todos_count`,
`has_next := skip + limit < total`, `has_prev := page > 1`. -/
def rest_get_todos (s : TodoStore) (page limit : Nat) (completed : Option Bool)
    (priority search : Option String) : TodoListResponse :=
  let skip := (page - 1) * limit
  let total := get_todos_count s completed priority search
  { todos := get_todos s skip limit completed priority search
    total := total
    page := page
    limit := limit
    has_next := decide (skip + limit < total)
    has_prev := decide (1 < page) }

/-- The pagination dictionary of `mcp_server.py` `get_todos`. -/
structure McpPagination where
  page : Nat
  limit : Nat
  total : Nat
  has_next : Bool
  has_prev : Bool
deriving DecidableEq, Repr

/-- `mcp_server.py` `get_todos` tool: same computation as the REST route,
returning the page of documents together with the pagination dictionary. -/
def mcp_get_todos (s : TodoStore) (page limit : Nat) (completed : Option Bool)
    (priority search : Option String) : List Todo × McpPagination :=
  let skip := (page - 1) * limit
  let total := get_todos_count s completed priority search
  (get_todos s skip limit completed priority search,
   { page := page
     limit := limit
     total := total
     has_next := decide (skip + limit < total)
     has_prev := decide (1 < page) })

/-- One segment of a route pattern: a literal segment or a path parameter. -/
inductive Seg where
  | lit : String → Seg
  | param : Seg
deriving DecidableEq

/-- The handler a request dispatches to, with captured path parameters. -/
inductive Endpoint where
  | root : Endpoint
  | createTodo : Endpoint
  | listTodos : Endpoint
  | getTodoById : String → Endpoint
  | updateTodoById : String → Endpoint
  | deleteTodoById : String → Endpoint
  | toggleTodoById : String → Endpoint
  | completedList : Endpoint
  | pendingList : Endpoint
  | tagList : String → Endpoint
  | stats : Endpoint
  | noRoute : Endpoint
deriving DecidableEq, Repr

/-- Pattern match of a route against the request path segments, returning the
captured parameter segments in order. -/
def segsMatch : List Seg → List String → Option (List String)
  | [], [] => some []
  | .lit a :: ps, b :: bs => if a == b then segsMatch ps bs else none
  | .param :: ps, b :: bs => (segsMatch ps bs).map (fun caps => b :: caps)
  | _, _ => none

/-- The route table of `main.py` in registration (decoration) order: method,
pattern, and the endpoint built from the captures. -/
def appRoutes : List (String × List Seg × (List String → Endpoint)) :=
  [("GET", [], fun _ => .root),
   ("POST", [.lit "todos"], fun _ => .createTodo),
   ("GET", [.lit "todos"], fun _ => .listTodos),
   ("GET", [.lit "todos", .param], fun caps => .getTodoById (caps.headD "")),
   ("PUT", [.lit "todos", .param], fun caps => .updateTodoById (caps.headD "")),
   ("DELETE", [.lit "todos", .param],
     fun caps => .deleteTodoById (caps.headD "")),
   ("PATCH", [.lit "todos", .param, .lit "toggle"],
     fun caps => .toggleTodoById (caps.headD "")),
   ("GET", [.lit "todos", .lit "completed"], fun _ => .completedList),
   ("GET", [.lit "todos", .lit "pending"], fun _ => .pendingList),
   ("GET", [.lit "todos", .lit "tag", .param],
     fun caps => .tagList (caps.headD "")),
   ("GET", [.lit "stats"], fun _ => .stats)]

/-- Starlette request dispatch: the first route in registration order whose
method and pattern match wins. -/
def dispatch (routes : List (String × List Seg × (List String → Endpoint)))
    (method : String) (path : List String) : Endpoint :=
  match routes with
  | [] => .noRoute
  | (m, pat, h) :: rs =>
    if m == method then
      match segsMatch pat path with
      | some caps => h caps
      | none => dispatch rs method path
    else dispatch rs method path

/-- Body of a GET response, as far as the claims need it: a 404 error with its
detail message, a single document, a document list, or some other body. -/
inductive RestResponse where
  | err404 : String → RestResponse
  | todo : Todo → RestResponse
  | todoList : List Todo → RestResponse
  | other : RestResponse
deriving DecidableEq, Repr

/-- GET request handling in `main.py`: dispatch through the route table, then
run the matched handler body against the store. -/
def handleGet (s : TodoStore) (path : List String) : RestResponse :=
  match dispatch appRoutes "GET" path with
  | .getTodoById i =>
    match get_todo s i with
    | some t => .todo t
    | none => .err404 "Todo not found"
  | .completedList => .todoList (get_completed_todos s)
  | .pendingList => .todoList (get_pending_todos s)
  | .tagList tag => .todoList (get_todos_by_tag s tag)
  | _ => .other

/-- On a pattern of literals only, anchored token matching is exactly the
case-insensitive starts-with test. -/
theorem matchHere_map_tokOf (l : List Char) (h : ∀ c ∈ l, ¬ c = '.') :
    ∀ cs : List Char, matchHere (l.map tokOf) cs = ciStartsWith l cs := by
  induction l with
  | nil => intro cs; cases cs <;> rfl
  | cons a as ih =>
    intro cs
    cases cs with
    | nil => rfl
    | cons b bs =>
      have ha : ¬ a = '.' := h a (List.mem_cons_self a as)
      have ihs := ih (fun c hc => h c (List.mem_cons_of_mem a hc)) bs
      simp [matchHere, ciStartsWith, tokOf, tokMatch, ha, ihs]

/-- On a pattern of literals only, unanchored regex search is exactly the
case-insensitive substring test. -/
theorem regexSearch_map_tokOf (l : List Char) (h : ∀ c ∈ l, ¬ c = '.') :
    ∀ cs : List Char, regexSearch (l.map tokOf) cs = ciSubstrAux l cs := by
  intro cs
  induction cs with
  | nil => simp [regexSearch, ciSubstrAux, matchHere_map_tokOf l h]
  | cons b bs ih =>
    simp [regexSearch, ciSubstrAux, matchHere_map_tokOf l h, ih]

/-- For a search string free of regex metacharacters, the modelled Mongo
regex clause coincides with the spec's case-insensitive substring test. -/
theorem mongoRegex_eq_spec (q hay : String) (hq : metaFree q = true) :
    mongoRegexMatchCI q hay = specCiSubstring q hay := by
  have hdot : ∀ c ∈ q.data, ¬ c = '.' := by
    intro c hc heq
    have h1 := List.all_eq_true.mp hq c hc
    subst heq
    simp [isRegexMeta] at h1
  exact regexSearch_map_tokOf q.data hdot hay.data

/-- Inserting into the descending sort adds one element. -/
theorem length_insertDesc (key : Todo → Nat) (d : Todo) (l : List Todo) :
    (insertDesc key d l).length = l.length + 1 := by
  induction l with
  | nil => rfl
  | cons e es ih =>
    by_cases h : key e < key d <;> simp [insertDesc, h, ih]

/-- The descending sort preserves length. -/
theorem length_sortByDesc (key : Todo → Nat) (l : List Todo) :
    (sortByDesc key l).length = l.length := by
  induction l with
  | nil => rfl
  | cons d ds ih => simp [sortByDesc, length_insertDesc, ih]

/-- When the collection holds a first match `r`, `update_one` reports a
modification exactly when the rewrite changes `r`, and (if the rewrite
preserves the match predicate) the rewritten document is the collection's new
first match. -/
theorem updateDocs_found (p : Todo → Bool) (f : Todo → Todo) :
    ∀ (l : List Todo) (r : Todo), l.find? p = some r →
      (updateDocs p f l).2 = decide (¬ f r = r) ∧
        (p (f r) = true → (updateDocs p f l).1.find? p = some (f r)) := by
  intro l
  induction l with
  | nil => intro r hr; simp [List.find?] at hr
  | cons d ds ih =>
    intro r hr
    by_cases hd : p d = true
    · have hrd : r = d := by
        rw [List.find?_cons_of_pos _ hd] at hr
        exact (Option.some.inj hr).symm
      subst hrd
      refine ⟨by simp [updateDocs, hd], ?_⟩
      intro hf
      simp [updateDocs, hd, List.find?_cons_of_pos _ hf]
    · rw [List.find?_cons_of_neg _ hd] at hr
      have ihr := ih r hr
      refine ⟨by simp [updateDocs, hd, ihr.1], ?_⟩
      intro hf
      simp [updateDocs, hd, List.find?_cons_of_neg _ hd, ihr.2 hf]

/-- `update_one` against a collection with no match leaves the collection
unchanged and reports no modification. -/
theorem updateDocs_nomatch (p : Todo → Bool) (f : Todo → Todo) :
    ∀ l : List Todo, l.find? p = none → updateDocs p f l = (l, false) := by
  intro l
  induction l with
  | nil => intro _; rfl
  | cons d ds ih =>
    intro h
    have hd : ¬ p d = true := by
      intro hd
      rw [List.find?_cons_of_pos _ hd] at h
      exact Option.noConfusion h
    rw [List.find?_cons_of_neg _ hd] at h
    simp [updateDocs, hd, ih h]

/-- `delete_one` against a collection with no match leaves the collection
unchanged and reports no deletion. -/
theorem eraseFirst_nomatch (p : Todo → Bool) :
    ∀ l : List Todo, l.find? p = none → eraseFirst p l = (l, false) := by
  intro l
  induction l with
  | nil => intro _; rfl
  | cons d ds ih =>
    intro h
    have hd : ¬ p d = true := by
      intro hd
      rw [List.find?_cons_of_pos _ hd] at h
      exact Option.noConfusion h
    rw [List.find?_cons_of_neg _ hd] at h
    simp [eraseFirst, hd, ih h]

/-- `hexDigits` always produces exactly the requested width. -/
theorem length_hexDigits (w : Nat) : ∀ v, (hexDigits w v).length = w := by
  induction w with
  | zero => intro v; rfl
  | succ n ih => intro v; simp [hexDigits, ih]

/-- A generated ObjectId string is never empty. -/
theorem genId_ne_empty (n : Nat) : ¬ genId n = "" := by
  intro h
  have h2 : hexDigits 24 n = [] := congrArg String.data h
  have h3 := length_hexDigits 24 n
  rw [h2] at h3
  simp at h3

/-- `find_one` on a collection extended with a fresh-id document finds that
document. -/
theorem find_one_append_new (l : List Todo) (doc : Todo)
    (h : ∀ d ∈ l, ¬ d.id = doc.id) :
    (l ++ [doc]).find? (fun d => d.id == doc.id) = some doc := by
  induction l with
  | nil => simp [List.find?]
  | cons e es ih =>
    have he : ¬ e.id = doc.id := h e (List.mem_cons_self e es)
    rw [List.cons_append, List.find?_cons_of_neg]
    · exact ih (fun d hd => h d (List.mem_cons_of_mem e hd))
    · simp [he]

/-- Fixture: a pending medium-priority todo titled "Buy milk" with no
description, under a well-formed ObjectId. -/
def milkTodo : Todo :=
  { id := "507f1f77bcf86cd799439011", title := "Buy milk", description := none,
    completed := false, priority := "medium", due_date := none, tags := [],
    created_at := 0, updated_at := 0 }

/-- Fixture: a store holding only `milkTodo`. -/
def milkStore : TodoStore := { docs := [milkTodo], nextId := 1 }

/-- Fixture: a todo titled "Buy eggs" in the same store shape. -/
def eggsTodo : Todo :=
  { milkTodo with id := "507f1f77bcf86cd799439012", title := "Buy eggs" }

/-- Fixture: a create request with only the title supplied (defaults
applied). -/
def createReq : TodoCreate :=
  { title := "Buy milk", description := none, completed := false,
    priority := "medium", due_date := none, tags := [] }

/-- Fixture: the record `create_todo` stores for `createReq` on an empty store
when the two clock reads are 0 and 1. -/
def rec01 : Todo :=
  { id := genId 0, title := "Buy milk", description := none, completed := false,
    priority := "medium", due_date := none, tags := [], created_at := 0,
    updated_at := 1 }

/-- Fixture: a stored todo titled "a". -/
def r3doc : Todo :=
  { id := "507f1f77bcf86cd799439011", title := "a", description := none,
    completed := false, priority := "medium", due_date := none, tags := [],
    created_at := 0, updated_at := 0 }

/-- Fixture: an update request whose only present field equals the stored
title of `r3doc`. -/
def sameTitleUpdate : TodoUpdate :=
  { title := some "a", description := none, completed := none,
    priority := none, due_date := none, tags := none }

/-- Fixture: the all-absent update request. -/
def emptyUpd : TodoUpdate :=
  { title := none, description := none, completed := none, priority := none,
    due_date := none, tags := none }

/-- Fixture: a store of five records (for the pagination scenario). -/
def fiveStore : TodoStore :=
  { docs := [r3doc, { r3doc with created_at := 1 },
      { r3doc with created_at := 2 }, { r3doc with created_at := 3 },
      { r3doc with created_at := 4 }], nextId := 5 }

/-- Claim C1, as stated, fails on the code: the search string is passed to
MongoDB as a case-insensitive regular expression, so the pattern "b.y" (which
is not a substring of "Buy milk", whose description is absent) still selects
the record — the search text has a further interpretation beyond substring
containment. -/
theorem C1_counterexample_regex_dot :
    get_todos_count milkStore none none (some "b.y") = 1 ∧
      specCiSubstring "b.y" milkTodo.title = false ∧
      milkTodo.description = none :=
  ⟨rfl, rfl, rfl⟩

/-- Claim C1 (amended): for search strings free of regex metacharacters the
text filter selects exactly the records whose title or description contains
the search string as a case-insensitive substring, OR-combined across the two
fields; an empty or absent search string applies no text filter. (In general
the search string is interpreted as a case-insensitive unanchored regular
expression.) -/
theorem C1_metafree_search_is_ci_substring (s : TodoStore) (q : String)
    (hq : metaFree q = true) (hne : ¬ q = "") (d : Todo) :
    (matchDoc (buildFilter none none (some q)) d =
      (specCiSubstring q d.title ||
        (match d.description with
         | some t => specCiSubstring q t
         | none => false))) ∧
      get_todos_count s none none (some q) =
        (s.docs.filter (fun e =>
          specCiSubstring q e.title ||
            (match e.description with
             | some t => specCiSubstring q t
             | none => false))).length ∧
      buildFilter none none (some "") = buildFilter none none none := by
  have hpoint : ∀ e : Todo,
      matchDoc (buildFilter none none (some q)) e =
        (specCiSubstring q e.title ||
          (match e.description with
           | some t => specCiSubstring q t
           | none => false)) := by
    intro e
    simp only [matchDoc, buildFilter, if_neg hne]
    cases e.description with
    | none => simp [mongoRegex_eq_spec _ _ hq]
    | some t => simp [mongoRegex_eq_spec _ _ hq]
  refine ⟨hpoint d, ?_, rfl⟩
  unfold get_todos_count
  rw [List.filter_congr (fun e _ => hpoint e)]

/-- Claim C1 witness: searching "milk" (metacharacter-free) matches the todo
titled "Buy milk" exactly as case-insensitive substring containment does, and
does not match the todo titled "Buy eggs". -/
theorem C1_witness_milk :
    matchDoc (buildFilter none none (some "milk")) milkTodo =
      (specCiSubstring "milk" milkTodo.title ||
        (match milkTodo.description with
         | some t => specCiSubstring "milk" t
         | none => false)) ∧
      matchDoc (buildFilter none none (some "milk")) milkTodo = true ∧
      matchDoc (buildFilter none none (some "milk")) eggsTodo = false :=
  ⟨(C1_metafree_search_is_ci_substring milkStore "milk" rfl (by decide)
      milkTodo).1, rfl, rfl⟩

/-- Claim C2, as stated, fails on the code: `create_todo` reads the clock
twice (`datetime.utcnow()` once for `created_at` and once for `updated_at`),
so with clock reads 0 then 1 the stored record has
`created_at ≠ updated_at`. -/
theorem C2_counterexample_two_clock_reads :
    (create_todo { docs := [], nextId := 0 } createReq 0 1).1 = some rec01 ∧
      ¬ rec01.created_at = rec01.updated_at :=
  ⟨rfl, by decide⟩

/-- Claim C2 (amended): for every valid create request, the stored record's
id is non-empty and `created_at ≤ updated_at`; the two timestamps come from
two successive reads of a monotone clock and are equal exactly when those
reads coincide. -/
theorem C2_create_id_nonempty_timestamps_ordered (s : TodoStore)
    (req : TodoCreate) (t1 t2 : Nat) (h12 : t1 ≤ t2)
    (hfresh : ∀ d ∈ s.docs, ¬ d.id = genId s.nextId) :
    ∃ r, (create_todo s req t1 t2).1 = some r ∧ ¬ r.id = "" ∧
      r.created_at ≤ r.updated_at := by
  refine ⟨createdDoc s req t1 t2, ?_, ?_, ?_⟩
  · exact find_one_append_new s.docs (createdDoc s req t1 t2) hfresh
  · exact genId_ne_empty s.nextId
  · exact h12

/-- Claim C2 witness: creating on the empty store with coinciding clock reads
yields a record with a non-empty id and ordered timestamps. -/
theorem C2_witness :
    ∃ r, (create_todo { docs := [], nextId := 0 } createReq 0 0).1 = some r ∧
      ¬ r.id = "" ∧ r.created_at ≤ r.updated_at :=
  C2_create_id_nonempty_timestamps_ordered { docs := [], nextId := 0 }
    createReq 0 0 (Nat.le_refl 0) (fun _ hd => nomatch hd)

/-- Claim C3, as stated, fails on the code: an update whose only present
field (`title := "a"`) equals the stored value still refreshes `updated_at`
(from 0 to the write time 5), because the `$set` always includes
`updated_at`. -/
theorem C3_counterexample_unchanged_field_refreshes :
    sameTitleUpdate.title = some r3doc.title ∧
      (update_todo { docs := [r3doc], nextId := 1 } "507f1f77bcf86cd799439011"
          sameTitleUpdate 5).1 =
        some { r3doc with updated_at := 5 } ∧
      ¬ (5 : Nat) = r3doc.updated_at :=
  ⟨rfl, rfl, by decide⟩

/-- Claim C3 (amended): for every existing record, `update_todo` refreshes
`updated_at` to the write time whenever the request has at least one present
field and the write time differs from the stored `updated_at`, even when
every present field equals its stored value; only a request with zero present
fields leaves `updated_at` (and the record) unchanged. -/
theorem C3_update_refreshes_on_any_present_field (s : TodoStore) (i : String)
    (u u' : TodoUpdate) (t t' : Nat) (r : Todo)
    (hv : isValidObjectId i = true) (hr : find_one s i = some r)
    (hu : isEmptyUpdate u = false) (ht : ¬ t = r.updated_at) :
    (update_todo s i u t).1 = some (applySet u t r) ∧
      (applySet u t r).updated_at = t ∧
      (isEmptyUpdate u' = true → update_todo s i u' t' = (some r, s)) := by
  have hr' : s.docs.find? (fun d => d.id == i) = some r := hr
  have hpr0 := List.find?_some hr'
  have hpr : (r.id == i) = true := hpr0
  have hup := updateDocs_found (fun d => d.id == i) (applySet u t) s.docs r hr'
  have hne : ¬ applySet u t r = r := by
    intro he
    exact ht (by rw [← he]; exact rfl)
  have hmod : (updateDocs (fun d => d.id == i) (applySet u t) s.docs).2 =
      true := by
    rw [hup.1]
    simp only [decide_eq_true_eq]
    exact hne
  have hid : ((applySet u t r).id == i) = true := hpr
  have hfind := hup.2 hid
  refine ⟨?_, rfl, ?_⟩
  · simp [update_todo, hv, hu, hmod, get_todo, find_one, hfind]
  · intro hu'
    simp [update_todo, hv, hu', get_todo, find_one, hr']

/-- Claim C3 witness: on the stored record `r3doc`, an update presenting the
unchanged title refreshes `updated_at` to the write time 7, while the
all-absent update is a no-op returning the current record. -/
theorem C3_witness :
    (update_todo { docs := [r3doc], nextId := 1 } "507f1f77bcf86cd799439011"
        sameTitleUpdate 7).1 = some (applySet sameTitleUpdate 7 r3doc) ∧
      (applySet sameTitleUpdate 7 r3doc).updated_at = 7 ∧
      (isEmptyUpdate emptyUpd = true →
        update_todo { docs := [r3doc], nextId := 1 }
            "507f1f77bcf86cd799439011" emptyUpd 9 =
          (some r3doc, { docs := [r3doc], nextId := 1 })) :=
  C3_update_refreshes_on_any_present_field { docs := [r3doc], nextId := 1 }
    "507f1f77bcf86cd799439011" sameTitleUpdate emptyUpd 7 9 r3doc rfl rfl rfl
    (by decide)

/-- Claim C4: the code contradicts the spec here. `main.py` registers
`GET /todos/{todo_id}` before `GET /todos/completed` and `GET /todos/pending`,
and Starlette dispatches to the first matching route, so both convenience
routes are shadowed: the request reaches the by-id handler with the literal
path segment as the id, which is not a valid ObjectId, and the response is a
404 "Todo not found" for every store state — never the sorted list the claim
describes. -/
theorem C4_completed_pending_routes_shadowed (s : TodoStore) :
    dispatch appRoutes "GET" ["todos", "completed"] =
        Endpoint.getTodoById "completed" ∧
      dispatch appRoutes "GET" ["todos", "pending"] =
        Endpoint.getTodoById "pending" ∧
      handleGet s ["todos", "completed"] = RestResponse.err404 "Todo not found" ∧
      handleGet s ["todos", "pending"] = RestResponse.err404 "Todo not found" ∧
      isValidObjectId "completed" = false ∧
      isValidObjectId "pending" = false :=
  ⟨rfl, rfl, rfl, rfl, rfl, rfl⟩

/-- Claim C5: for every filter combination and store state, the count equals
the number of records returned by a list request at offset 0 with the count
as the limit. -/
theorem C5_count_eq_list_length (s : TodoStore) (completed : Option Bool)
    (priority search : Option String) :
    (get_todos s 0 (get_todos_count s completed priority search) completed
        priority search).length =
      get_todos_count s completed priority search := by
  unfold get_todos get_todos_count
  rw [List.drop_zero, List.length_take, length_sortByDesc]
  exact Nat.min_self _

/-- Claim C6: for a string that is not a valid ObjectId, GetById/Update/Toggle
return an absent result and Delete returns false, identically to the
valid-but-missing-id case, with the store left unchanged in both cases. -/
theorem C6_invalid_id_absent (s : TodoStore) (i j : String) (u : TodoUpdate)
    (t1 t2 t3 t4 : Nat) (hi : isValidObjectId i = false)
    (hj : isValidObjectId j = true) (hm : find_one s j = none) :
    get_todo s i = none ∧ update_todo s i u t1 = (none, s) ∧
      toggle_todo s i t2 = (none, s) ∧ delete_todo s i = (false, s) ∧
      get_todo s j = none ∧ update_todo s j u t3 = (none, s) ∧
      toggle_todo s j t4 = (none, s) ∧ delete_todo s j = (false, s) := by
  have hm' : s.docs.find? (fun d => d.id == j) = none := hm
  refine ⟨by simp [get_todo, hi], by simp [update_todo, hi],
    by simp [toggle_todo, hi], by simp [delete_todo, hi],
    by simp [get_todo, hj, find_one, hm'], ?_, ?_, ?_⟩
  · by_cases hu : isEmptyUpdate u = true
    · simp [update_todo, hj, hu, get_todo, find_one, hm']
    · have hb : isEmptyUpdate u = false := by
        cases hq : isEmptyUpdate u
        · rfl
        · exact absurd hq hu
      simp [update_todo, hj, hb, updateDocs_nomatch _ _ s.docs hm']
  · simp [toggle_todo, hj, get_todo, find_one, hm']
  · simp [delete_todo, hj, eraseFirst_nomatch _ s.docs hm']

/-- Claim C6 witness: the malformed id "x" and the valid-but-absent id both
yield absent results and leave the empty store unchanged. -/
theorem C6_witness :
    get_todo { docs := [], nextId := 0 } "x" = none ∧
      delete_todo { docs := [], nextId := 0 } "x" =
        (false, { docs := [], nextId := 0 }) ∧
      toggle_todo { docs := [], nextId := 0 } "507f1f77bcf86cd799439011" 3 =
        (none, { docs := [], nextId := 0 }) :=
  ⟨(C6_invalid_id_absent { docs := [], nextId := 0 } "x"
      "507f1f77bcf86cd799439011" emptyUpd 1 2 3 4 rfl rfl rfl).1,
    (C6_invalid_id_absent { docs := [], nextId := 0 } "x"
      "507f1f77bcf86cd799439011" emptyUpd 1 2 3 4 rfl rfl rfl).2.2.2.1,
    (C6_invalid_id_absent { docs := [], nextId := 0 } "x"
      "507f1f77bcf86cd799439011" emptyUpd 1 2 3 4 rfl rfl rfl).2.2.2.2.2.2.1⟩

/-- Claim C7: for every existing record, an update request with zero present
fields leaves the store entirely unchanged (no `updated_at` refresh) and still
returns the current record. -/
theorem C7_empty_update_noop (s : TodoStore) (i : String) (u : TodoUpdate)
    (t : Nat) (r : Todo) (hv : isValidObjectId i = true)
    (hr : find_one s i = some r) (he : isEmptyUpdate u = true) :
    update_todo s i u t = (some r, s) := by
  simp [update_todo, hv, he, get_todo, hr]

/-- Claim C7 witness: the all-absent update on the store holding `r3doc`
returns `r3doc` and leaves the store untouched. -/
theorem C7_witness :
    update_todo { docs := [r3doc], nextId := 1 } "507f1f77bcf86cd799439011"
        emptyUpd 9 = (some r3doc, { docs := [r3doc], nextId := 1 }) :=
  C7_empty_update_noop { docs := [r3doc], nextId := 1 }
    "507f1f77bcf86cd799439011" emptyUpd 9 r3doc rfl rfl rfl

/-- Claim C8, as stated, fails on the code: a supplied empty-string priority
filter is treated exactly as if the filter were omitted (`if priority:` is
false for the empty string), so it builds the same filter document as no
priority filter and still returns the record whose priority is "medium". -/
theorem C8_counterexample_empty_priority_ignored :
    buildFilter none (some "") none = buildFilter none none none ∧
      get_todos_count milkStore none (some "") none = 1 ∧
      milkTodo.priority = "medium" ∧
      get_todos milkStore 0 10 none (some "") none =
        get_todos milkStore 0 10 none none none :=
  ⟨rfl, rfl, rfl, rfl⟩

/-- Claim C8 (amended): an absent completed filter and an absent priority
filter impose no constraint; a supplied completed value is always applied, so
completed=false filters to incomplete records and is distinguished from an
absent filter; but a supplied empty-string priority (or search) value is
treated exactly as if the filter were omitted. -/
theorem C8_filter_absent_and_false_semantics (c : Option Bool)
    (p q : Option String) (d : Todo) :
    matchDoc (buildFilter none none none) d = true ∧
      matchDoc (buildFilter (some false) none none) d = !d.completed ∧
      matchDoc (buildFilter (some true) none none) d = d.completed ∧
      buildFilter c (some "") q = buildFilter c none q ∧
      buildFilter c p (some "") = buildFilter c p none := by
  refine ⟨rfl, ?_, ?_, rfl, rfl⟩
  · simp only [matchDoc, buildFilter, Bool.and_true]
    cases d.completed <;> rfl
  · simp only [matchDoc, buildFilter, Bool.and_true]
    cases d.completed <;> rfl

/-- Claim C9: the paginated list endpoints (REST route and MCP tool) compute
`offset = (page-1)*limit`, `has_next = offset+limit < total`,
`has_prev = page > 1`; a request whose offset is at or beyond the total
returns an empty sequence. -/
theorem C9_pagination_contract (s : TodoStore) (page limit : Nat)
    (c : Option Bool) (p q : Option String) (_hp : 1 ≤ page) :
    (rest_get_todos s page limit c p q).todos =
        get_todos s ((page - 1) * limit) limit c p q ∧
      (rest_get_todos s page limit c p q).total = get_todos_count s c p q ∧
      (rest_get_todos s page limit c p q).has_next =
        decide ((page - 1) * limit + limit < get_todos_count s c p q) ∧
      (rest_get_todos s page limit c p q).has_prev = decide (1 < page) ∧
      mcp_get_todos s page limit c p q =
        (get_todos s ((page - 1) * limit) limit c p q,
          { page := page, limit := limit, total := get_todos_count s c p q,
            has_next :=
              decide ((page - 1) * limit + limit < get_todos_count s c p q),
            has_prev := decide (1 < page) }) ∧
      (get_todos_count s c p q ≤ (page - 1) * limit →
        get_todos s ((page - 1) * limit) limit c p q = []) := by
  refine ⟨rfl, rfl, rfl, rfl, rfl, ?_⟩
  intro hle
  unfold get_todos
  rw [List.drop_eq_nil_of_le, List.take_nil]
  rw [length_sortByDesc]
  exact hle

/-- Claim C9 witness: against a store of five records, page 2 with limit 10
(offset 10) returns the empty sequence with `has_next = false` and
`has_prev = true`. -/
theorem C9_witness :
    get_todos fiveStore ((2 - 1) * 10) 10 none none none = [] ∧
      (rest_get_todos fiveStore 2 10 none none none).has_next = false ∧
      (rest_get_todos fiveStore 2 10 none none none).has_prev = true :=
  ⟨(C9_pagination_contract fiveStore 2 10 none none none
      (by decide)).2.2.2.2.2 (by decide), rfl, rfl⟩

/-- Fetching a present document and toggling it: the stored document gets
`completed` flipped and `updated_at` set to the write time, nothing else
changes, and the toggled document is what `find_one` now returns. -/
theorem toggle_found (s : TodoStore) (i : String) (t : Nat) (r : Todo)
    (hv : isValidObjectId i = true) (hr : find_one s i = some r) :
    toggle_todo s i t =
        (some { r with completed := !r.completed, updated_at := t },
          { s with docs :=
              (updateDocs (fun d => d.id == i)
                (fun d => { d with completed := !r.completed, updated_at := t })
                s.docs).1 }) ∧
      find_one
          { s with docs :=
              (updateDocs (fun d => d.id == i)
                (fun d => { d with completed := !r.completed, updated_at := t })
                s.docs).1 } i =
        some { r with completed := !r.completed, updated_at := t } := by
  have hr' : s.docs.find? (fun d => d.id == i) = some r := hr
  have hpr0 := List.find?_some hr'
  have hpr : (r.id == i) = true := hpr0
  have hup := updateDocs_found (fun d => d.id == i)
    (fun d => { d with completed := !r.completed, updated_at := t }) s.docs r
    hr'
  have hne : ¬ ({ r with completed := !r.completed, updated_at := t } :
      Todo) = r := by
    intro he
    have hc : ({ r with completed := !r.completed, updated_at := t } :
        Todo).completed = r.completed := congrArg Todo.completed he
    simp at hc
  have hmod : (updateDocs (fun d => d.id == i)
      (fun d => { d with completed := !r.completed, updated_at := t })
      s.docs).2 = true := by
    rw [hup.1]
    simp only [decide_eq_true_eq]
    exact hne
  have hid : (({ r with completed := !r.completed, updated_at := t } :
      Todo).id == i) = true := hpr
  have hfind := hup.2 hid
  constructor
  · simp [toggle_todo, hv, get_todo, find_one, hr', hmod, hfind]
  · exact hfind

/-- Claim C10: toggling an existing record flips only `completed` and sets
`updated_at` to the write time, leaving id, title, description, priority,
due_date, tags and created_at unchanged; toggling again restores `completed`
to its original value. -/
theorem C10_toggle_frame_involution (s : TodoStore) (i : String) (t t' : Nat)
    (r : Todo) (hv : isValidObjectId i = true) (hr : find_one s i = some r) :
    ∃ s1 s2 : TodoStore,
      toggle_todo s i t =
          (some { r with completed := !r.completed, updated_at := t }, s1) ∧
        toggle_todo s1 i t' = (some { r with updated_at := t' }, s2) := by
  obtain ⟨ht1, hf1⟩ := toggle_found s i t r hv hr
  obtain ⟨ht2, _⟩ := toggle_found
    { s with docs :=
        (updateDocs (fun d => d.id == i)
          (fun d => { d with completed := !r.completed, updated_at := t })
          s.docs).1 } i t'
    { r with completed := !r.completed, updated_at := t } hv hf1
  have hrec : ({ ({ r with completed := !r.completed, updated_at := t } :
      Todo) with
        completed := !({ r with completed := !r.completed, updated_at := t} :
          Todo).completed,
        updated_at := t' } : Todo) = { r with updated_at := t' } := by
    show ({ r with completed := !(!r.completed), updated_at := t' } : Todo) =
      { r with updated_at := t' }
    rw [Bool.not_not]
  rw [hrec] at ht2
  exact ⟨_, _, ht1, ht2⟩

/-- Claim C10 witness: toggling `milkTodo` marks it completed at time 3 with
all other fields intact, and toggling again at time 4 restores the pending
state. -/
theorem C10_witness :
    ∃ s1 s2 : TodoStore,
      toggle_todo milkStore "507f1f77bcf86cd799439011" 3 =
          (some { milkTodo with
                  completed := !milkTodo.completed, updated_at := 3 }, s1) ∧
        toggle_todo s1 "507f1f77bcf86cd799439011" 4 =
          (some { milkTodo with updated_at := 4 }, s2) :=
  C10_toggle_frame_involution milkStore "507f1f77bcf86cd799439011" 3 4
    milkTodo rfl rfl
